import Mathlib

/-!
Verification of the `mangum-cli` command module (`mangum_cli/commands.py`).

The module is modelled shallowly:

* The working directory is a map from file name to file content (`FS`);
  `os.getcwd()` is fixed, so paths are reduced to bare file names.
* The PyYAML calls `yaml.dump(config, default_flow_style=False, sort_keys=False)`
  and `yaml.safe_load` are modelled on the fragment of YAML the program
  actually produces and consumes: a block mapping whose values are plain or
  single-quoted scalars (strings, booleans, integers, null), one `key: value`
  line per entry.  The model's plain-scalar set is a conservative subset of
  PyYAML's (the model single-quotes some strings PyYAML would leave plain);
  both sides of the round trip use the same quoting convention.
* `uuid.uuid4()`, the default boto3 region and the S3 API outcome are
  nondeterministic inputs; they are passed to `create_bucket` as oracle
  arguments.
* `click.echo` output is collected in an `echoed : List String` trace;
  calls on the `Config` collaborator are collected as `ProviderOp` events.
-/

/-- The single-quote character, written by its code point. -/
def sqChar : Char := Char.ofNat 39

/-- Characters the model treats as safe inside an unquoted (plain) YAML scalar. -/
def isPlainChar (c : Char) : Bool :=
  c.isAlphanum || c = '-' || c = '.' || c = '_' || c = '/'

/-- Strings that YAML would resolve to a non-string scalar (so PyYAML quotes them). -/
def isBoolNullOrInt (s : String) : Bool :=
  s = "null" || s = "true" || s = "false" || (!s.data.isEmpty && s.data.all Char.isDigit)

/-- Strings the model dumps unquoted. -/
def isPlainStr (s : String) : Bool :=
  !s.data.isEmpty && s.data.all isPlainChar && !isBoolNullOrInt s

/-- Single-quoted YAML escaping: a quote inside the scalar is doubled. -/
def escSq : List Char → List Char
  | [] => []
  | c :: cs => if c = sqChar then sqChar :: sqChar :: escSq cs else c :: escSq cs

/-- Scalar values occurring in the descriptor mapping. -/
inductive Yaml
  | str (s : String)
  | bool (b : Bool)
  | nat (n : Nat)
  | null
deriving DecidableEq, Repr

/-- Serialized form of one scalar. -/
def dumpScalarData : Yaml → List Char
  | .null => "null".data
  | .bool true => "true".data
  | .bool false => "false".data
  | .nat n => (Nat.repr n).data
  | .str s => if isPlainStr s then s.data else sqChar :: (escSq s.data ++ [sqChar])

/-- Model of `yaml.dump(m, default_flow_style=False, sort_keys=False)`: one
`key: value` line per entry, in insertion order. -/
def dumpEntries : List (String × Yaml) → List Char
  | [] => []
  | (k, v) :: rest => k.data ++ ':' :: ' ' :: (dumpScalarData v ++ ('\n' :: dumpEntries rest))

def yamlDump (m : List (String × Yaml)) : String :=
  String.mk (dumpEntries m)

/-- Value of a digit run (the scalar is already known to be all digits). -/
def digitsVal (l : List Char) : Nat :=
  l.foldl (fun a c => a * 10 + (c.toNat - 48)) 0

/-- Read the body of a single-quoted scalar that must end the value:
doubled quotes collapse, a single quote closes, trailing garbage is an error. -/
def unq : List Char → Option (List Char)
  | [] => none
  | c :: cs =>
    if c = sqChar then
      match cs with
      | [] => some []
      | c2 :: cs2 => if c2 = sqChar then (unq cs2).map (fun l => sqChar :: l) else none
    else (unq cs).map (fun l => c :: l)

/-- Parse one scalar value, mirroring YAML resolution on the model's fragment. -/
def parseScalar (v : List Char) : Except String Yaml :=
  if v = "null".data then .ok .null
  else if v = "true".data then .ok (.bool true)
  else if v = "false".data then .ok (.bool false)
  else if !v.isEmpty && v.all Char.isDigit then .ok (.nat (digitsVal v))
  else
    match v with
    | [] => .error "empty scalar"
    | c :: cs =>
      if c = sqChar then
        match unq cs with
        | some body => .ok (.str (String.mk body))
        | none => .error "while scanning a quoted scalar"
      else if (c :: cs).all isPlainChar then .ok (.str (String.mk (c :: cs)))
      else .error "could not parse scalar value"

/-- Split a line at its first colon. -/
def splitAtColon : List Char → Option (List Char × List Char)
  | [] => none
  | c :: cs =>
    if c = ':' then some ([], cs)
    else (splitAtColon cs).map (fun p => (c :: p.1, p.2))

/-- Parse one `key: value` line of a block mapping. -/
def parseLine (l : List Char) : Except String (String × Yaml) :=
  match splitAtColon l with
  | none => .error "could not find expected colon"
  | some (k, rest) =>
    if k.all isPlainChar && !k.isEmpty then
      match rest with
      | ' ' :: v => (parseScalar v).map (fun y => (String.mk k, y))
      | _ => .error "expected a space after the colon"
    else .error "bad mapping key"

/-- Split character data into lines. -/
def splitOnNl : List Char → List (List Char)
  | [] => [[]]
  | c :: cs =>
    if c = '\n' then [] :: splitOnNl cs
    else
      match splitOnNl cs with
      | [] => [[c]]
      | l :: ls => (c :: l) :: ls

/-- Parse a block mapping: every non-empty line is a `key: value` entry. -/
def loadEntries (l : List Char) : Except String (List (String × Yaml)) :=
  ((splitOnNl l).filter (fun x => !x.isEmpty)).mapM parseLine

/-- Model of `yaml.safe_load` on the model's YAML fragment. -/
def yamlLoad (s : String) : Except String (List (String × Yaml)) :=
  loadEntries s.data

/-- Modelled from the spec: `mangum_cli/config.py` is not among the sources.
The spec's data model names the descriptor settings (stack name, code
directory, handler path, bucket name, region, runtime, websocket flag,
timeout, storage/database access flags); `Config(**config_data)` binds each
setting to the field of the same name. -/
structure Config where
  name : Yaml
  code_dir : Yaml
  handler : Yaml
  bucket_name : Yaml
  region_name : Yaml
  runtime : Yaml
  websockets : Yaml
  timeout : Yaml
  s3_access : Yaml
  dynamodb_access : Yaml
deriving DecidableEq, Repr

def configKeys : List String :=
  ["name", "code_dir", "handler", "bucket_name", "region_name", "runtime",
   "websockets", "timeout", "s3_access", "dynamodb_access"]

/-- Keyword construction `Config(**m)`: every key must be a known field and
every field must be supplied; failure models Python's `TypeError`. -/
def Config.ofMap (m : List (String × Yaml)) : Option Config :=
  if m.all (fun kv => configKeys.contains kv.1) then
    (m.lookup "name").bind fun name =>
    (m.lookup "code_dir").bind fun code_dir =>
    (m.lookup "handler").bind fun handler =>
    (m.lookup "bucket_name").bind fun bucket_name =>
    (m.lookup "region_name").bind fun region_name =>
    (m.lookup "runtime").bind fun runtime =>
    (m.lookup "websockets").bind fun websockets =>
    (m.lookup "timeout").bind fun timeout =>
    (m.lookup "s3_access").bind fun s3_access =>
    (m.lookup "dynamodb_access").bind fun dynamodb_access =>
    some ⟨name, code_dir, handler, bucket_name, region_name, runtime,
          websockets, timeout, s3_access, dynamodb_access⟩
  else none

/-- Errors a command can raise. -/
inductive CmdError
  | ioError (msg : String)
  | runtimeError (msg : String)
  | typeError (msg : String)
deriving DecidableEq, Repr

/-- The working directory: file name to file content. -/
def FS : Type := String → Option String

/-- Model of `open(path, "w")` followed by a full write. -/
def FS.write (fs : FS) (path content : String) : FS :=
  fun p => if p = path then some content else fs p

/-- Model of `open(path, "a")` followed by a write: creates the file when missing. -/
def FS.append (fs : FS) (path content : String) : FS :=
  fun p => if p = path then some (((fs path).getD "") ++ content) else fs p

namespace Mangum

/-- Model of `get_config`: read `mangum.yml` from the working directory,
`safe_load` it (wrapping a YAML error in a `RuntimeError`) and build a `Config`. -/
def get_config (fs : FS) : Except CmdError Config :=
  match fs "mangum.yml" with
  | none => .error (.ioError "File not found: mangum.yml does not exist.")
  | some config_data =>
    match yamlLoad config_data with
    | .error e => .error (.runtimeError e)
    | .ok m =>
      match Config.ofMap m with
      | some c => .ok c
      | none => .error (.typeError "Config could not be constructed")

/-- One anchored match of `[a-zA-Z][a-zA-Z-]+` against a whole line. -/
def regexBody (l : List Char) : Bool :=
  match l with
  | [] => false
  | c :: cs => c.isAlpha && !cs.isEmpty && cs.all (fun d => d.isAlpha || d = '-')

/-- Truth of `re.match(r'^[a-zA-Z][a-zA-Z-]+$', name) is not None`.  Python's `$`
also matches just before a trailing newline, so a name ending in one
newline matches when the part before it does. -/
def nameMatchesRegex (s : String) : Bool :=
  regexBody s.data || (s.data.getLast? = some '\n' && regexBody s.data.dropLast)

/-- The condition under which `init` skips the warning. -/
def nameIsValid (s : String) : Bool :=
  nameMatchesRegex s && s.length ≤ 128

/-- The warning block echoed for an illegal stack name (punctuation of the
quoted text normalized). -/
def stackNameWarning : List String :=
  ["*** WARNING ***",
   "Illegal stack name.",
   "A stack name can contain only alphanumeric characters (case-sensitive) and hyphens.",
   "It must start with an alphabetic character and cannot be longer than 128 characters.",
   "(https://docs.aws.amazon.com/AWSCloudFormation/latest/UserGuide/cfn-using-console-create-stack-parameters.html)",
   ""]

def Yaml.ofOptStr : Option String → Yaml
  | none => .null
  | some s => .str s

/-- The descriptor mapping `init` builds, in insertion order. -/
def initConfig (name : String) (bucket_name region_name : Option String)
    (runtime : String) (s3_access dynamodb_access : Bool) : List (String × Yaml) :=
  [("name", .str name),
   ("code_dir", .str "app"),
   ("handler", .str "asgi.handler"),
   ("bucket_name", Yaml.ofOptStr bucket_name),
   ("region_name", Yaml.ofOptStr region_name),
   ("runtime", .str runtime),
   ("websockets", .bool false),
   ("timeout", .nat 300),
   ("s3_access", .bool s3_access),
   ("dynamodb_access", .bool dynamodb_access)]

structure InitResult where
  echoed : List String
  fs : FS

/-- The `init` command: validate the name (warning only), dump the
descriptor to `mangum.yml` (overwrite) and append one line to
`requirements.txt`. -/
def init (name : String) (bucket_name region_name : Option String)
    (runtime : String) (s3_access dynamodb_access : Bool) (fs : FS) : InitResult :=
  let warn := if nameIsValid name then [] else stackNameWarning
  let cfg := initConfig name bucket_name region_name runtime s3_access dynamodb_access
  let fs1 := fs.write "mangum.yml" (yamlDump cfg)
  let fs2 := fs1.append "requirements.txt" "mangum\n"
  { echoed := warn ++ ["Generating initial configuration...",
                       "Configuration saved to: ./mangum.yml"],
    fs := fs2 }

/-- Calls made on the `Config` collaborator, in order. -/
inductive ProviderOp
  | build (no_pip : Bool)
  | package
  | deploy
  | describe
  | validate
  | delete
deriving DecidableEq, Repr

def build (no_pip : Bool) (fs : FS) : Except CmdError (List ProviderOp) :=
  (get_config fs).map (fun _ => [.build no_pip])

def package (fs : FS) : Except CmdError (List ProviderOp) :=
  (get_config fs).map (fun _ => [.package])

def deploy (fs : FS) : Except CmdError (List ProviderOp) :=
  (get_config fs).map (fun _ => [.deploy, .describe])

def all (no_pip : Bool) (fs : FS) : Except CmdError (List ProviderOp) :=
  (get_config fs).map (fun _ => [.build no_pip, .package, .deploy, .describe])

def validate (fs : FS) : Except CmdError (List ProviderOp) :=
  (get_config fs).map (fun _ => [.validate])

def delete (fs : FS) : Except CmdError (List ProviderOp) :=
  (get_config fs).map (fun _ => [.delete])

def describe (fs : FS) : Except CmdError (List ProviderOp) :=
  (get_config fs).map (fun _ => [.describe])

/-- Python string truthiness of an optional CLI argument. -/
def falsy : Option String → Bool
  | none => true
  | some s => s.isEmpty

structure CreateBucketResult where
  echoed : List String
  createCalls : List (String × String)
deriving DecidableEq, Repr

/-- The `create_bucket` command.  `u4` stands for the `uuid.uuid4()` draw,
`defaultRegion` for the boto3 session's region, and `apiError` for the
outcome of the single S3 `create_bucket` call (`some msg` = `ClientError`). -/
def create_bucket (bucket_name region_name : Option String)
    (u4 : String) (defaultRegion : String) (apiError : Option String) :
    CreateBucketResult :=
  let pre1 : List String :=
    if falsy bucket_name then ["No bucket name provided, one will be generated."] else []
  let bname := if falsy bucket_name then "mangum-" ++ u4 else bucket_name.getD ""
  let pre2 : List String :=
    if falsy region_name then ["No region specified, using default."] else []
  let rname := if falsy region_name then defaultRegion else region_name.getD ""
  match apiError with
  | some e =>
    { echoed := pre1 ++ pre2 ++ [e], createCalls := [(bname, rname)] }
  | none =>
    { echoed := pre1 ++ pre2 ++
        ["Bucket name:\n" ++ bname ++ "\nRegion name:\n" ++ rname],
      createCalls := [(bname, rname)] }

/-- Iteration of `init`, re-run `n` times with the same arguments. -/
def initIter (name : String) (bucket_name region_name : Option String)
    (runtime : String) (s3_access dynamodb_access : Bool) : Nat → FS → FS
  | 0, fs => fs
  | n + 1, fs =>
    initIter name bucket_name region_name runtime s3_access dynamodb_access n
      (init name bucket_name region_name runtime s3_access dynamodb_access fs).fs

/-- Concatenation of `n` copies of the line appended to `requirements.txt`. -/
def repMangum : Nat → String
  | 0 => ""
  | n + 1 => "mangum\n" ++ repMangum n

end Mangum

/-- The stack-name rule in the spec's words: only alphanumeric characters
and hyphens, starting with an alphabetic character, length at most 128. -/
def specNameValid (s : String) : Bool :=
  match s.data with
  | [] => false
  | c :: cs => c.isAlpha && (c :: cs).all (fun d => d.isAlphanum || d = '-')
      && decide (s.length ≤ 128)

/-- Strings whose characters are all printable ASCII; on these the model's
scalar serialization agrees with PyYAML up to choice of quoting style. -/
def okStr (s : String) : Bool :=
  s.data.all (fun c => 32 ≤ c.toNat && c.toNat ≤ 126)

def okOptStr : Option String → Bool
  | none => true
  | some s => okStr s

/-! ### Round-trip lemmas for the YAML fragment -/

theorem plain_ne_nl {c : Char} (h : isPlainChar c = true) : c ≠ '\n' := by
  rintro rfl; exact absurd h (by decide)

theorem plain_ne_colon {c : Char} (h : isPlainChar c = true) : c ≠ ':' := by
  rintro rfl; exact absurd h (by decide)

theorem plain_ne_sq {c : Char} (h : isPlainChar c = true) : c ≠ sqChar := by
  rintro rfl; exact absurd h (by decide)

theorem escSq_cons_sq (cs : List Char) :
    escSq (sqChar :: cs) = sqChar :: sqChar :: escSq cs := rfl

theorem escSq_cons_ne (c : Char) (cs : List Char) (h : ¬c = sqChar) :
    escSq (c :: cs) = c :: escSq cs := by
  conv_lhs => rw [escSq.eq_def]
  simp [h]

theorem unq_cons_ne (c : Char) (cs : List Char) (h : ¬c = sqChar) :
    unq (c :: cs) = (unq cs).map (fun l => c :: l) := by
  conv_lhs => rw [unq.eq_def]
  simp [h]

theorem unq_sq_sq (cs : List Char) :
    unq (sqChar :: sqChar :: cs) = (unq cs).map (fun l => sqChar :: l) := rfl

theorem unq_escSq (l : List Char) : unq (escSq l ++ [sqChar]) = some l := by
  induction l with
  | nil => rfl
  | cons c cs ih =>
    by_cases h : c = sqChar
    · subst h
      rw [escSq_cons_sq, List.cons_append, List.cons_append, unq_sq_sq, ih]
      rfl
    · rw [escSq_cons_ne c cs h, List.cons_append, unq_cons_ne c _ h, ih]
      rfl

theorem mem_escSq {c : Char} {l : List Char} (h : c ∈ escSq l) : c ∈ l ∨ c = sqChar := by
  induction l with
  | nil => simp [escSq] at h
  | cons d ds ih =>
    by_cases hd : d = sqChar
    · subst hd
      rw [escSq_cons_sq] at h
      obtain h | h := List.mem_cons.mp h
      · exact Or.inr h
      · obtain h | h := List.mem_cons.mp h
        · exact Or.inr h
        · obtain h | h := ih h
          · exact Or.inl (List.mem_cons_of_mem _ h)
          · exact Or.inr h
    · rw [escSq_cons_ne d ds hd] at h
      obtain h | h := List.mem_cons.mp h
      · exact Or.inl (List.mem_cons.mpr (Or.inl h))
      · obtain h | h := ih h
        · exact Or.inl (List.mem_cons_of_mem _ h)
        · exact Or.inr h

theorem splitAtColon_append (k rest : List Char) (h : ':' ∉ k) :
    splitAtColon (k ++ ':' :: rest) = some (k, rest) := by
  induction k with
  | nil => simp [splitAtColon]
  | cons c cs ih =>
    have hc : ¬(c = ':') := fun hc => h (hc ▸ List.mem_cons_self _ _)
    simp only [List.cons_append, splitAtColon, if_neg hc, List.append_eq]
    rw [ih (fun hm => h (List.mem_cons_of_mem _ hm))]
    rfl

theorem splitOnNl_append (a rest : List Char) (h : '\n' ∉ a) :
    splitOnNl (a ++ '\n' :: rest) = a :: splitOnNl rest := by
  induction a with
  | nil => simp [splitOnNl]
  | cons c cs ih =>
    have hc : ¬(c = '\n') := fun hc => h (hc ▸ List.mem_cons_self _ _)
    simp only [List.cons_append, splitOnNl, if_neg hc, List.append_eq]
    rw [ih (fun hm => h (List.mem_cons_of_mem _ hm))]

theorem parseScalar_dump_str (s : String) :
    parseScalar (dumpScalarData (.str s)) = .ok (.str s) := by
  obtain ⟨l⟩ := s
  by_cases hp : isPlainStr ⟨l⟩ = true
  · have hd : dumpScalarData (.str ⟨l⟩) = l := by simp [dumpScalarData, hp]
    rw [hd]
    have hp' := hp
    simp only [isPlainStr, Bool.and_eq_true, Bool.not_eq_true'] at hp'
    obtain ⟨⟨hne, hall⟩, hres⟩ := hp'
    simp only [isBoolNullOrInt, Bool.or_eq_false_iff, decide_eq_false_iff_not] at hres
    obtain ⟨⟨⟨h0, h1⟩, h2⟩, h3⟩ := hres
    have g0 : ¬(l = "null".data) := fun hh => h0 (String.ext hh)
    have g1 : ¬(l = "true".data) := fun hh => h1 (String.ext hh)
    have g2 : ¬(l = "false".data) := fun hh => h2 (String.ext hh)
    simp only [parseScalar, if_neg g0, if_neg g1, if_neg g2, h3]
    match l, hne, hall with
    | c :: cs, _, hall =>
      have hcall : isPlainChar c = true := by
        simp only [List.all_cons, Bool.and_eq_true] at hall
        exact hall.1
      simp [plain_ne_sq hcall, hall]
  · have hd : dumpScalarData (.str ⟨l⟩) = sqChar :: (escSq l ++ [sqChar]) := by
      simp [dumpScalarData, hp]
    rw [hd]
    have g0 : ¬(sqChar :: (escSq l ++ [sqChar]) = "null".data) := by
      intro hh; injection hh with hh _; exact absurd hh (by decide)
    have g1 : ¬(sqChar :: (escSq l ++ [sqChar]) = "true".data) := by
      intro hh; injection hh with hh _; exact absurd hh (by decide)
    have g2 : ¬(sqChar :: (escSq l ++ [sqChar]) = "false".data) := by
      intro hh; injection hh with hh _; exact absurd hh (by decide)
    have g3 : (!(sqChar :: (escSq l ++ [sqChar])).isEmpty
        && (sqChar :: (escSq l ++ [sqChar])).all Char.isDigit) = false := by
      simp [List.all_cons, show Char.isDigit sqChar = false from by decide]
    simp only [parseScalar, if_neg g0, if_neg g1, if_neg g2, g3, unq_escSq]
    simp

theorem parseScalar_dump_bool (b : Bool) :
    parseScalar (dumpScalarData (.bool b)) = .ok (.bool b) := by
  cases b <;> rfl

theorem nl_not_mem_dump_str {s : String} (h : '\n' ∉ s.data) :
    '\n' ∉ dumpScalarData (.str s) := by
  by_cases hp : isPlainStr s = true
  · simpa [dumpScalarData, hp] using h
  · simp only [dumpScalarData, if_neg hp]
    intro hm
    obtain hm | hm := List.mem_cons.mp hm
    · exact absurd hm (by decide)
    · obtain hm | hm := List.mem_append.mp hm
      · obtain hm | hm := mem_escSq hm
        · exact h hm
        · exact absurd hm (by decide)
      · obtain hm | hm := List.mem_cons.mp hm
        · exact absurd hm (by decide)
        · simp at hm

/-- Conditions under which one dumped entry parses back to itself. -/
def EntryOK (kv : String × Yaml) : Prop :=
  kv.1.data ≠ [] ∧ kv.1.data.all isPlainChar = true ∧
  parseScalar (dumpScalarData kv.2) = Except.ok kv.2 ∧ '\n' ∉ dumpScalarData kv.2

theorem parseLine_entry (k : String) (v : Yaml)
    (hk1 : k.data ≠ []) (hk2 : k.data.all isPlainChar = true)
    (hv : parseScalar (dumpScalarData v) = Except.ok v) :
    parseLine (k.data ++ ':' :: ' ' :: dumpScalarData v) = .ok (k, v) := by
  have hcolon : ':' ∉ k.data := by
    intro hm
    exact plain_ne_colon (List.all_eq_true.mp hk2 _ hm) rfl
  have hcond : (k.data.all isPlainChar && !k.data.isEmpty) = true := by
    simp [hk2, hk1]
  obtain ⟨kl⟩ := k
  simp only [parseLine, splitAtColon_append _ _ hcolon, hcond, if_true, hv]
  rfl

theorem loadEntries_dumpEntries (m : List (String × Yaml)) (h : ∀ kv ∈ m, EntryOK kv) :
    loadEntries (dumpEntries m) = .ok m := by
  induction m with
  | nil => rfl
  | cons kv rest ih =>
    obtain ⟨k, v⟩ := kv
    obtain ⟨hk1, hk2, hv1, hv2⟩ := h (k, v) (List.mem_cons_self _ _)
    have hline_nl : '\n' ∉ k.data ++ ':' :: ' ' :: dumpScalarData v := by
      intro hm
      obtain hm | hm := List.mem_append.mp hm
      · exact plain_ne_nl (List.all_eq_true.mp hk2 _ hm) rfl
      · obtain hm | hm := List.mem_cons.mp hm
        · exact absurd hm (by decide)
        · obtain hm | hm := List.mem_cons.mp hm
          · exact absurd hm (by decide)
          · exact hv2 hm
    have hshape : dumpEntries ((k, v) :: rest)
        = (k.data ++ ':' :: ' ' :: dumpScalarData v) ++ '\n' :: dumpEntries rest := by
      simp [dumpEntries, List.append_assoc]
    have hne : k.data ++ ':' :: ' ' :: dumpScalarData v ≠ [] := by
      intro hl
      exact absurd (List.append_eq_nil.mp hl).2 (by simp)
    have hrest : loadEntries (dumpEntries rest) = .ok rest :=
      ih (fun kv hkv => h kv (List.mem_cons_of_mem _ hkv))
    simp only [loadEntries] at hrest ⊢
    rw [hshape, splitOnNl_append _ _ hline_nl]
    rw [List.filter_cons]
    have hcondf : (!(k.data ++ ':' :: ' ' :: dumpScalarData v).isEmpty) = true := by
      simp only [Bool.not_eq_true', List.isEmpty_eq_false]
      exact hne
    rw [if_pos hcondf]
    rw [List.mapM_cons]
    rw [parseLine_entry k v hk1 hk2 hv1, hrest]
    rfl

theorem okStr_no_nl {s : String} (h : okStr s = true) : '\n' ∉ s.data := by
  intro hm
  exact absurd (List.all_eq_true.mp h _ hm) (by decide)

theorem entryOK_str (k s : String) (hk1 : k.data ≠ [])
    (hk2 : k.data.all isPlainChar = true) (hs : okStr s = true) :
    EntryOK (k, .str s) :=
  ⟨hk1, hk2, parseScalar_dump_str s, nl_not_mem_dump_str (okStr_no_nl hs)⟩

theorem nl_not_mem_dump_null : '\n' ∉ dumpScalarData Yaml.null := by decide

theorem nl_not_mem_dump_bool (b : Bool) : '\n' ∉ dumpScalarData (.bool b) := by
  cases b <;> decide

theorem nl_not_mem_dump_nat300 : '\n' ∉ dumpScalarData (.nat 300) := by decide

theorem entryOK_opt (k : String) (o : Option String) (hk1 : k.data ≠ [])
    (hk2 : k.data.all isPlainChar = true) (ho : okOptStr o = true) :
    EntryOK (k, Mangum.Yaml.ofOptStr o) := by
  cases o with
  | none => exact ⟨hk1, hk2, rfl, nl_not_mem_dump_null⟩
  | some s => exact entryOK_str k s hk1 hk2 ho

theorem entryOK_bool (k : String) (b : Bool) (hk1 : k.data ≠ [])
    (hk2 : k.data.all isPlainChar = true) :
    EntryOK (k, .bool b) :=
  ⟨hk1, hk2, parseScalar_dump_bool b, nl_not_mem_dump_bool b⟩

theorem get_config_of_file (fs : FS) (m : List (String × Yaml))
    (hf : fs "mangum.yml" = some (yamlDump m))
    (hl : loadEntries (dumpEntries m) = .ok m) :
    Mangum.get_config fs = (match Config.ofMap m with
      | some c => Except.ok c
      | none => Except.error (.typeError "Config could not be constructed")) := by
  simp only [Mangum.get_config, hf]
  have hy : yamlLoad (yamlDump m) = .ok m := hl
  rw [hy]

/-- Claim C1: `init` followed by `get_config` in the same directory returns a
`Config` whose fields equal the values supplied to `init`, unchanged (dump
then `safe_load` round-trips the descriptor mapping); the supplied strings
are assumed printable ASCII, the domain on which the YAML model is faithful. -/
theorem init_get_config_roundtrip (name : String) (bn rn : Option String) (rt : String)
    (s3 db : Bool) (fs : FS)
    (hn : okStr name = true) (hb : okOptStr bn = true) (hr : okOptStr rn = true)
    (ht : okStr rt = true) :
    Mangum.get_config (Mangum.init name bn rn rt s3 db fs).fs
      = .ok ⟨.str name, .str "app", .str "asgi.handler", Mangum.Yaml.ofOptStr bn,
             Mangum.Yaml.ofOptStr rn, .str rt, .bool false, .nat 300, .bool s3, .bool db⟩ := by
  have hm : loadEntries (dumpEntries (Mangum.initConfig name bn rn rt s3 db))
      = .ok (Mangum.initConfig name bn rn rt s3 db) := by
    apply loadEntries_dumpEntries
    intro kv hkv
    simp only [Mangum.initConfig, List.mem_cons] at hkv
    obtain rfl | rfl | rfl | rfl | rfl | rfl | rfl | rfl | rfl | rfl | h := hkv
    · exact entryOK_str _ _ (by decide) (by decide) hn
    · exact ⟨by decide, by decide, parseScalar_dump_str _, by decide⟩
    · exact ⟨by decide, by decide, parseScalar_dump_str _, by decide⟩
    · exact entryOK_opt _ _ (by decide) (by decide) hb
    · exact entryOK_opt _ _ (by decide) (by decide) hr
    · exact entryOK_str _ _ (by decide) (by decide) ht
    · exact entryOK_bool _ _ (by decide) (by decide)
    · exact ⟨by decide, by decide, rfl, nl_not_mem_dump_nat300⟩
    · exact entryOK_bool _ _ (by decide) (by decide)
    · exact entryOK_bool _ _ (by decide) (by decide)
    · exact absurd h (List.not_mem_nil _)
  rw [get_config_of_file _ _ rfl hm]
  rfl

theorem init_get_config_roundtrip_witness :
    okStr "my-app" = true ∧ okOptStr (some "my-bucket") = true ∧ okOptStr none = true
  ∧ okStr "python3.7" = true
  ∧ Mangum.get_config (Mangum.init "my-app" (some "my-bucket") none "python3.7" true false
      (fun _ => none)).fs
      = .ok ⟨.str "my-app", .str "app", .str "asgi.handler",
             Mangum.Yaml.ofOptStr (some "my-bucket"), Mangum.Yaml.ofOptStr none,
             .str "python3.7", .bool false, .nat 300, .bool true, .bool false⟩ :=
  ⟨by decide, by decide, by decide, by decide,
    init_get_config_roundtrip "my-app" (some "my-bucket") none "python3.7" true false
      (fun _ => none) (by decide) (by decide) (by decide) (by decide)⟩

/-- Claim C2: a name rejected by the validation check makes `init` print the
warning block, yet the descriptor `mangum.yml` is still written; validation
failure never aborts descriptor creation. -/
theorem invalid_name_still_writes (name : String) (bn rn : Option String) (rt : String)
    (s3 db : Bool) (fs : FS) (h : Mangum.nameIsValid name = false) :
    (Mangum.init name bn rn rt s3 db fs).echoed
      = Mangum.stackNameWarning ++
        ["Generating initial configuration...", "Configuration saved to: ./mangum.yml"]
  ∧ (Mangum.init name bn rn rt s3 db fs).fs "mangum.yml"
      = some (yamlDump (Mangum.initConfig name bn rn rt s3 db)) := by
  refine ⟨?_, rfl⟩
  simp [Mangum.init, h]

theorem invalid_name_still_writes_witness :
    Mangum.nameIsValid "x" = false
  ∧ ((Mangum.init "x" none none "python3.7" true true (fun _ => none)).echoed
      = Mangum.stackNameWarning ++
        ["Generating initial configuration...", "Configuration saved to: ./mangum.yml"]
    ∧ (Mangum.init "x" none none "python3.7" true true (fun _ => none)).fs "mangum.yml"
      = some (yamlDump (Mangum.initConfig "x" none none "python3.7" true true))) :=
  ⟨by decide, invalid_name_still_writes "x" none none "python3.7" true true
    (fun _ => none) (by decide)⟩

/-- Claim C3: with no `mangum.yml` in the working directory, `get_config`
raises the I/O failure and every lifecycle command returns that error with
no provider operation performed. -/
theorem missing_descriptor_fails_all (fs : FS) (np : Bool) (h : fs "mangum.yml" = none) :
    Mangum.get_config fs = .error (.ioError "File not found: mangum.yml does not exist.")
  ∧ Mangum.build np fs = .error (.ioError "File not found: mangum.yml does not exist.")
  ∧ Mangum.package fs = .error (.ioError "File not found: mangum.yml does not exist.")
  ∧ Mangum.deploy fs = .error (.ioError "File not found: mangum.yml does not exist.")
  ∧ Mangum.all np fs = .error (.ioError "File not found: mangum.yml does not exist.")
  ∧ Mangum.validate fs = .error (.ioError "File not found: mangum.yml does not exist.")
  ∧ Mangum.delete fs = .error (.ioError "File not found: mangum.yml does not exist.")
  ∧ Mangum.describe fs = .error (.ioError "File not found: mangum.yml does not exist.") := by
  have hg : Mangum.get_config fs
      = .error (.ioError "File not found: mangum.yml does not exist.") := by
    simp only [Mangum.get_config, h]
  refine ⟨hg, ?_, ?_, ?_, ?_, ?_, ?_, ?_⟩ <;>
    simp only [Mangum.build, Mangum.package, Mangum.deploy, Mangum.all,
      Mangum.validate, Mangum.delete, Mangum.describe, hg] <;> rfl

theorem missing_descriptor_fails_all_witness :
    ((fun (_ : String) => (none : Option String)) "mangum.yml" = none)
  ∧ (Mangum.get_config (fun _ => none)
      = .error (.ioError "File not found: mangum.yml does not exist.")
    ∧ Mangum.build true (fun _ => none)
      = .error (.ioError "File not found: mangum.yml does not exist.")
    ∧ Mangum.package (fun _ => none)
      = .error (.ioError "File not found: mangum.yml does not exist.")
    ∧ Mangum.deploy (fun _ => none)
      = .error (.ioError "File not found: mangum.yml does not exist.")
    ∧ Mangum.all true (fun _ => none)
      = .error (.ioError "File not found: mangum.yml does not exist.")
    ∧ Mangum.validate (fun _ => none)
      = .error (.ioError "File not found: mangum.yml does not exist.")
    ∧ Mangum.delete (fun _ => none)
      = .error (.ioError "File not found: mangum.yml does not exist.")
    ∧ Mangum.describe (fun _ => none)
      = .error (.ioError "File not found: mangum.yml does not exist.")) :=
  ⟨rfl, missing_descriptor_fails_all (fun _ => none) true rfl⟩

/-- Claim C4: when no bucket name is provided (absent or empty), the bucket
name passed to the S3 create call is the string mangum- followed by the
generated UUID. -/
theorem create_bucket_default_name (bn rn : Option String) (u4 dr : String)
    (err : Option String) (h : Mangum.falsy bn = true) :
    (Mangum.create_bucket bn rn u4 dr err).createCalls.map Prod.fst
      = ["mangum-" ++ u4] := by
  cases err <;> simp [Mangum.create_bucket, h]

theorem create_bucket_default_name_witness :
    Mangum.falsy none = true
  ∧ (Mangum.create_bucket none (some "us-east-1") "1234-uuid" "eu-west-1" none).createCalls.map
      Prod.fst = ["mangum-" ++ "1234-uuid"] :=
  ⟨rfl, create_bucket_default_name none (some "us-east-1") "1234-uuid" "eu-west-1" none rfl⟩

/-- Claim C5 (code-bug evidence): the name abc123 satisfies the spec's
alphanumeric-and-hyphen rule but fails the code's regular expression
`^[a-zA-Z][a-zA-Z-]+$`, which admits no digits. -/
theorem name_validation_rejects_digits :
    Mangum.nameIsValid "abc123" = false ∧ specNameValid "abc123" = true := by
  decide

/-- Claim C7: `create_bucket` makes exactly one S3 create call (no retry),
independent of the outcome; a `ClientError` is printed after the
outcome-independent preamble and nothing is re-raised; the
bucket-name/region success message is printed exactly when no error
occurred. -/
theorem create_bucket_error_handling (bn rn : Option String) (u4 dr : String) :
    ∃ pre b r,
      (∀ err, (Mangum.create_bucket bn rn u4 dr err).createCalls = [(b, r)])
    ∧ (∀ e, (Mangum.create_bucket bn rn u4 dr (some e)).echoed = pre ++ [e])
    ∧ (Mangum.create_bucket bn rn u4 dr none).echoed
        = pre ++ ["Bucket name:\n" ++ b ++ "\nRegion name:\n" ++ r] := by
  refine ⟨(if Mangum.falsy bn then ["No bucket name provided, one will be generated."] else [])
      ++ (if Mangum.falsy rn then ["No region specified, using default."] else []),
    (if Mangum.falsy bn then "mangum-" ++ u4 else bn.getD ""),
    (if Mangum.falsy rn then dr else rn.getD ""), ?_, ?_, ?_⟩
  · intro err; cases err <;> rfl
  · intro e; rfl
  · rfl

/-- Claim C6: when `mangum.yml` exists but its content fails to parse, the
YAML error is wrapped and re-raised as a runtime error by `get_config`, and
every lifecycle command surfaces exactly that wrapped error. -/
theorem malformed_yaml_wrapped (fs : FS) (content e : String) (np : Bool)
    (hc : fs "mangum.yml" = some content) (he : yamlLoad content = .error e) :
    Mangum.get_config fs = .error (.runtimeError e)
  ∧ Mangum.build np fs = .error (.runtimeError e)
  ∧ Mangum.package fs = .error (.runtimeError e)
  ∧ Mangum.deploy fs = .error (.runtimeError e)
  ∧ Mangum.all np fs = .error (.runtimeError e)
  ∧ Mangum.validate fs = .error (.runtimeError e)
  ∧ Mangum.delete fs = .error (.runtimeError e)
  ∧ Mangum.describe fs = .error (.runtimeError e) := by
  have hg : Mangum.get_config fs = .error (.runtimeError e) := by
    simp only [Mangum.get_config, hc, he]
  refine ⟨hg, ?_, ?_, ?_, ?_, ?_, ?_, ?_⟩ <;>
    simp only [Mangum.build, Mangum.package, Mangum.deploy, Mangum.all,
      Mangum.validate, Mangum.delete, Mangum.describe, hg] <;> rfl

theorem malformed_yaml_wrapped_witness :
    ((fun p => if p = "mangum.yml" then some "a: [x\n" else none) : FS) "mangum.yml"
      = some "a: [x\n"
  ∧ yamlLoad "a: [x\n" = .error "could not parse scalar value"
  ∧ Mangum.get_config (fun p => if p = "mangum.yml" then some "a: [x\n" else none)
      = .error (.runtimeError "could not parse scalar value") :=
  ⟨rfl, rfl,
    (malformed_yaml_wrapped (fun p => if p = "mangum.yml" then some "a: [x\n" else none)
      "a: [x\n" "could not parse scalar value" true rfl rfl).1⟩

def fsGood : FS := fun p =>
  if p = "mangum.yml"
  then some (yamlDump (Mangum.initConfig "app-x" none none "python3.7" true true))
  else none

def cfgGood : Config :=
  ⟨.str "app-x", .str "app", .str "asgi.handler", .null, .null, .str "python3.7",
   .bool false, .nat 300, .bool true, .bool true⟩

/-- Claim C8, counterexample: on a directory holding a valid descriptor, the
`deploy` subcommand does not invoke only the deploy lifecycle operation; it
invokes deploy and then describe. -/
theorem deploy_also_describes :
    Mangum.deploy fsGood = .ok [Mangum.ProviderOp.deploy, Mangum.ProviderOp.describe]
  ∧ ¬ Mangum.deploy fsGood = .ok [Mangum.ProviderOp.deploy] := by
  constructor
  · rfl
  · intro h
    rw [show Mangum.deploy fsGood
        = .ok [Mangum.ProviderOp.deploy, Mangum.ProviderOp.describe] from rfl] at h
    simp at h

/-- Claim C8, amended: after successfully loading the descriptor each
subcommand invokes its lifecycle operations in source order, forwarding
flags and nothing else: build and package invoke their single operation,
deploy invokes deploy then describe, and all invokes build, package,
deploy, describe. -/
theorem dispatch_forwards_to_lifecycle (fs : FS) (c : Config) (np : Bool)
    (h : Mangum.get_config fs = .ok c) :
    Mangum.build np fs = .ok [.build np]
  ∧ Mangum.package fs = .ok [.package]
  ∧ Mangum.deploy fs = .ok [.deploy, .describe]
  ∧ Mangum.all np fs = .ok [.build np, .package, .deploy, .describe]
  ∧ Mangum.validate fs = .ok [.validate]
  ∧ Mangum.delete fs = .ok [.delete]
  ∧ Mangum.describe fs = .ok [.describe] := by
  refine ⟨?_, ?_, ?_, ?_, ?_, ?_, ?_⟩ <;>
    simp only [Mangum.build, Mangum.package, Mangum.deploy, Mangum.all,
      Mangum.validate, Mangum.delete, Mangum.describe, h] <;> rfl

theorem dispatch_forwards_to_lifecycle_witness :
    Mangum.get_config fsGood = .ok cfgGood
  ∧ (Mangum.build true fsGood = .ok [.build true]
    ∧ Mangum.package fsGood = .ok [.package]
    ∧ Mangum.deploy fsGood = .ok [.deploy, .describe]
    ∧ Mangum.all true fsGood = .ok [.build true, .package, .deploy, .describe]
    ∧ Mangum.validate fsGood = .ok [.validate]
    ∧ Mangum.delete fsGood = .ok [.delete]
    ∧ Mangum.describe fsGood = .ok [.describe]) :=
  ⟨rfl, dispatch_forwards_to_lifecycle fsGood cfgGood true rfl⟩

/-- Claim C9: `init` appends exactly the line mangum (with trailing newline)
to `requirements.txt`, keeping all pre-existing content as an unchanged
suffix-extension (append mode), and touches no file other than `mangum.yml`
and `requirements.txt`. -/
theorem init_requirements_and_frame (name : String) (bn rn : Option String) (rt : String)
    (s3 db : Bool) (fs : FS) :
    (Mangum.init name bn rn rt s3 db fs).fs "requirements.txt"
      = some (((fs "requirements.txt").getD "") ++ "mangum\n")
  ∧ ∀ p, p ≠ "mangum.yml" → p ≠ "requirements.txt" →
      (Mangum.init name bn rn rt s3 db fs).fs p = fs p := by
  refine ⟨rfl, fun p h1 h2 => ?_⟩
  simp [Mangum.init, FS.append, FS.write, h1, h2]

theorem init_requirements_and_frame_witness :
    ("app.py" : String) ≠ "mangum.yml"
  ∧ ("app.py" : String) ≠ "requirements.txt"
  ∧ (Mangum.init "my-app" none none "python3.7" true true
      (fun _ => none)).fs "app.py" = (fun (_ : String) => (none : Option String)) "app.py" :=
  ⟨by decide, by decide,
    (init_requirements_and_frame "my-app" none none "python3.7" true true
      (fun _ => none)).2 "app.py" (by decide) (by decide)⟩

theorem initIter_succ_spec (n : Nat) (name : String) (bn rn : Option String)
    (rt : String) (s3 db : Bool) (fs : FS) :
    Mangum.initIter name bn rn rt s3 db (n + 1) fs "mangum.yml"
      = (Mangum.init name bn rn rt s3 db fs).fs "mangum.yml"
  ∧ Mangum.initIter name bn rn rt s3 db (n + 1) fs "requirements.txt"
      = some (((fs "requirements.txt").getD "") ++ Mangum.repMangum (n + 1)) := by
  induction n generalizing fs with
  | zero =>
    refine ⟨rfl, ?_⟩
    show (Mangum.init name bn rn rt s3 db fs).fs "requirements.txt" = _
    rw [show (Mangum.init name bn rn rt s3 db fs).fs "requirements.txt"
        = some (((fs "requirements.txt").getD "") ++ "mangum\n") from rfl]
    rw [show Mangum.repMangum 1 = "mangum\n" ++ "" from rfl, String.append_empty]
  | succ m ih =>
    have hstep : ∀ k, Mangum.initIter name bn rn rt s3 db (m + 1 + 1) fs k
        = Mangum.initIter name bn rn rt s3 db (m + 1)
            ((Mangum.init name bn rn rt s3 db fs).fs) k := fun _ => rfl
    obtain ⟨ih1, ih2⟩ := ih ((Mangum.init name bn rn rt s3 db fs).fs)
    constructor
    · rw [hstep, ih1]
      rfl
    · rw [hstep, ih2]
      rw [show ((Mangum.init name bn rn rt s3 db fs).fs "requirements.txt")
          = some (((fs "requirements.txt").getD "") ++ "mangum\n") from rfl]
      simp only [Option.getD_some]
      rw [String.append_assoc]
      rfl

/-- Claim C10: running `init` n times (n at least 1) with the same arguments
leaves `mangum.yml` exactly as after a single run (overwrite mode), while
`requirements.txt` ends with n appended mangum lines. -/
theorem init_iterated (n : Nat) (hn : 1 ≤ n) (name : String) (bn rn : Option String)
    (rt : String) (s3 db : Bool) (fs : FS) :
    Mangum.initIter name bn rn rt s3 db n fs "mangum.yml"
      = (Mangum.init name bn rn rt s3 db fs).fs "mangum.yml"
  ∧ Mangum.initIter name bn rn rt s3 db n fs "requirements.txt"
      = some (((fs "requirements.txt").getD "") ++ Mangum.repMangum n) := by
  obtain ⟨m, rfl⟩ : ∃ m, n = m + 1 := ⟨n - 1, by omega⟩
  exact initIter_succ_spec m name bn rn rt s3 db fs

theorem init_iterated_witness :
    1 ≤ 2
  ∧ (Mangum.initIter "my-app" none none "python3.7" true true 2 (fun _ => none) "mangum.yml"
      = (Mangum.init "my-app" none none "python3.7" true true (fun _ => none)).fs "mangum.yml"
    ∧ Mangum.initIter "my-app" none none "python3.7" true true 2 (fun _ => none) "requirements.txt"
      = some ((((fun (_ : String) => (none : Option String)) "requirements.txt").getD "")
          ++ Mangum.repMangum 2)) :=
  ⟨by decide, init_iterated 2 (by decide) "my-app" none none "python3.7" true true (fun _ => none)⟩
